import Mathlib

/-!
Verification of the dialogue-orchestration core of the Seguros Sura AI
assistant (Python sources under `src/`).  The Python code is shallowly
embedded: dictionaries become structures with `Option` fields, the
`context_data` bag becomes the `ContextData` structure, external
collaborators (LLM classifier, RAG backend, issuance API, SQLite) are
passed in as explicit oracle arguments, and exceptions become explicit
outcome values.  Every definition mirrors a concrete function of the
source; the file ends with the theorems settling the spec claims.
-/

namespace SegurosSura

/-! ## String utilities mirroring Python primitives -/

/-- Python `needle in hay` for lists of characters: `needle` occurs as a
contiguous sublist. -/
def charPrefixOf : List Char → List Char → Bool
  | [], _ => true
  | _ :: _, [] => false
  | a :: as, b :: bs => a = b && charPrefixOf as bs

/-- Substring occurrence on character lists (Python `in` on strings). -/
def charSub (needle : List Char) : List Char → Bool
  | [] => charPrefixOf needle []
  | c :: rest => charPrefixOf needle (c :: rest) || charSub needle rest

/-- Python `needle in hay` on strings. -/
def strContains (hay needle : String) : Bool :=
  charSub needle.data hay.data

/-- ASCII/Spanish lower-casing of one character (Python `str.lower` on the
alphabet this codebase uses). -/
def charLower (c : Char) : Char :=
  if 'A' ≤ c ∧ c ≤ 'Z' then Char.ofNat (c.toNat + 32)
  else if c = 'Á' then 'á' else if c = 'É' then 'é'
  else if c = 'Í' then 'í' else if c = 'Ó' then 'ó'
  else if c = 'Ú' then 'ú' else if c = 'Ñ' then 'ñ'
  else if c = 'Ü' then 'ü' else c

/-- ASCII/Spanish upper-casing of one character (Python `str.upper`). -/
def charUpper (c : Char) : Char :=
  if 'a' ≤ c ∧ c ≤ 'z' then Char.ofNat (c.toNat - 32)
  else if c = 'á' then 'Á' else if c = 'é' then 'É'
  else if c = 'í' then 'Í' else if c = 'ó' then 'Ó'
  else if c = 'ú' then 'Ú' else if c = 'ñ' then 'Ñ'
  else if c = 'ü' then 'Ü' else c

/-- Python `str.lower`. -/
def lowerStr (s : String) : String := ⟨s.data.map charLower⟩

/-- Python `str.upper`. -/
def upperStr (s : String) : String := ⟨s.data.map charUpper⟩

/-- Whitespace as recognised by Python `str.strip` / `str.split`. -/
def isPySpace (c : Char) : Bool :=
  c = ' ' || c = '\t' || c = '\n' || c = '\r'

/-- Python `str.strip()`. -/
def stripStr (s : String) : String :=
  ⟨((s.data.dropWhile isPySpace).reverse.dropWhile isPySpace).reverse⟩

/-- Splits on whitespace runs, dropping empties (Python `str.split()`). -/
def splitWordsAux (cur : List Char) : List Char → List (List Char)
  | [] => if cur.isEmpty then [] else [cur.reverse]
  | c :: rest =>
    if isPySpace c then
      if cur.isEmpty then splitWordsAux [] rest
      else cur.reverse :: splitWordsAux [] rest
    else splitWordsAux (c :: cur) rest

/-- Python `str.split()` (no separator argument). -/
def splitWords (s : String) : List String :=
  (splitWordsAux [] s.data).map fun cs => ⟨cs⟩

/-- Number of whitespace-separated tokens, Python `len(s.split())`. -/
def wordCount (s : String) : Nat := (splitWords s).length

/-- Python `str.isdigit()` restricted to ASCII decimal digits. -/
def isDigits (s : String) : Bool :=
  !s.data.isEmpty && s.data.all Char.isDigit

/-- `any(kw in hay for kw in kws)` on strings. -/
def anyKeyword (hay : String) (kws : List String) : Bool :=
  kws.any fun kw => strContains hay kw

/-! ## Client data and field validation
(`src/services/expedition_service.py`, `validate_client_data`) -/

/-- The client-data mapping used by the Issuance flow.  Keys present in the
Python dict become `some` fields. -/
structure ClientData where
  nombre_tomador : Option String := none
  identificacion_tomador : Option String := none
  celular_tomador : Option String := none
  email_tomador : Option String := none
deriving DecidableEq, Repr

/-- Validation-error slots produced by `validate_client_data`; a `some`
entry is the error message stored under that key. -/
structure ValidationErrors where
  identificacion_tomador : Option String := none
  celular_tomador : Option String := none
  email_tomador : Option String := none
deriving DecidableEq, Repr

/-- `validate_client_data`, mirroring `expedition_service.py` lines 23-62:
required-field check first, then the per-field format checks (the later
assignment overwrites the earlier one on the same key, as in a Python
dict). -/
def validate_client_data (cd : ClientData) : ValidationErrors :=
  let req : Option String → Option String := fun v =>
    match v with
    | none => some "requerido"
    | some s => if s = "" then some "requerido" else none
  let e0 : ValidationErrors :=
    { identificacion_tomador := req cd.identificacion_tomador
      celular_tomador := req cd.celular_tomador
      email_tomador := req cd.email_tomador }
  let e1 :=
    match cd.identificacion_tomador with
    | none => e0
    | some v =>
      let cedula := stripStr v
      let msg := "Cédula debe tener entre 6 y 12 dígitos"
      if !isDigits cedula || cedula.length < 6 || cedula.length > 12 then
        { e0 with identificacion_tomador := some msg }
      else { e0 with identificacion_tomador := none }
  let e2 :=
    match cd.celular_tomador with
    | none => e1
    | some v =>
      let celular := stripStr v
      let msg := "Celular debe tener exactamente 10 dígitos"
      if !isDigits celular || celular.length ≠ 10 then
        { e1 with celular_tomador := some msg }
      else { e1 with celular_tomador := none }
  match cd.email_tomador with
  | none => e2
  | some v =>
    let email := stripStr v
    if !strContains email "@" || !strContains email "." then
      { e2 with email_tomador := some "Email debe tener formato válido" }
    else { e2 with email_tomador := none }

/-- A full record is accepted when the error dict comes back empty. -/
def clientDataAccepted (cd : ClientData) : Bool :=
  let e := validate_client_data cd
  e.identificacion_tomador.isNone && e.celular_tomador.isNone &&
    e.email_tomador.isNone

/-- Acceptance of the identification field alone: no error recorded under
its key when the field is present. -/
def idFieldAccepted (s : String) : Bool :=
  (validate_client_data { identificacion_tomador := some s }).identificacion_tomador.isNone

/-- Acceptance of the mobile field alone. -/
def celFieldAccepted (s : String) : Bool :=
  (validate_client_data { celular_tomador := some s }).celular_tomador.isNone

/-- Acceptance of the email field alone. -/
def emailFieldAccepted (s : String) : Bool :=
  (validate_client_data { email_tomador := some s }).email_tomador.isNone

/-- Modelled from the spec: "email: contains \"@\" and a domain segment
with a dot" — the part after the first "@" must itself contain a ".". -/
def specEmailDomainHasDot (s : String) : Bool :=
  match s.data.dropWhile (· ≠ '@') with
  | [] => false
  | _ :: domain => charSub ['.'] domain

/-! ## Deterministic client-data extraction fallback
(`src/agents/expedition_agent.py`, `_parse_client_data`, regex branch) -/

/-- Python regex word characters (`\w`), ASCII approximation used by the
digit patterns of `_parse_client_data`. -/
def isWordChar (c : Char) : Bool :=
  c.isAlphanum || c = '_'

/-- Maximal runs of word characters of a string, in order.  A pattern
`\b\d{n,m}\b` matches exactly those runs that are all digits and have a
length in the range, because `\b` requires a non-word neighbour on both
sides of the digits. -/
def wordRunsAux (cur : List Char) : List Char → List (List Char)
  | [] => if cur.isEmpty then [] else [cur.reverse]
  | c :: rest =>
    if isWordChar c then wordRunsAux (c :: cur) rest
    else if cur.isEmpty then wordRunsAux [] rest
    else cur.reverse :: wordRunsAux [] rest

/-- Maximal word-character runs of a string. -/
def wordRuns (s : String) : List String :=
  (wordRunsAux [] s.data).map fun cs => ⟨cs⟩

/-- First character of a string starts with `'3'`. -/
def startsWith3 (s : String) : Bool :=
  match s.data with
  | [] => false
  | c :: _ => c = '3'

/-- `re.findall(r'\b(3\d{9})\b', input)[0]`: the first maximal digit run
of length exactly 10 that starts with `'3'` (`celular_tomador` in the
regex fallback of `_parse_client_data`). -/
def fallbackCelular (input : String) : Option String :=
  (wordRuns input).find? fun r =>
    isDigits r && r.length = 10 && startsWith3 r

/-- The `\b(\d{6,11})\b` candidates of the regex fallback: all maximal
digit runs of length 6 to 11. -/
def fallbackCedulaCandidates (input : String) : List String :=
  (wordRuns input).filter fun r =>
    isDigits r && 6 ≤ r.length && r.length ≤ 11

/-- The cédula loop of `_parse_client_data`: the first 6-11 digit run that
does not start with `'3'` (`identificacion_tomador`). -/
def fallbackCedula (input : String) : Option String :=
  (fallbackCedulaCandidates input).find? fun r => !startsWith3 r

/-! ## Context data, agent state, database
(`src/agents/base_agent.py` `AgentState`; `src/utils/database.py`) -/

/-- A quotation as the Issuance handler consumes it: the plan names of
`current_quotation["quotations"]` (premium amounts are irrelevant to the
routing and state-machine claims). -/
structure Quotation where
  plans : List String
deriving DecidableEq, Repr

/-- The keys of the `context_data` dict that the orchestrator and the
Issuance flow read or write.  An absent key is `none` / the Python
default used by the corresponding `.get` call. -/
structure ContextData where
  transfer_to : Option String := none
  force_end : Bool := false
  expedition_state : Option String := none
  quotation_state : Option String := none
  awaiting_user_response : Bool := false
  /-- `context_data.get("needs_human_intervention", False)`, a distinct
  key from the `AgentState` field of the same name. -/
  needs_human_key : Bool := false
  transfer_attempts : Nat := 0
  current_quotation : Option Quotation := none
  expedition_ready : Bool := false
  partial_client_data : ClientData := {}
  client_data : Option ClientData := none
  selected_plan : Option String := none
  previous_agent : Option String := none
  expedition_result : Option String := none
  has_image : Bool := false
  human_intervention_activated : Bool := false
deriving DecidableEq, Repr

/-- One message of the conversation history. -/
structure Message where
  role : String
  content : String
  agent : String
deriving DecidableEq, Repr

/-- The LangGraph `AgentState` (`base_agent.py` lines 16-31), restricted
to the fields the claims are about. -/
structure AgentState where
  session_id : String
  user_type : String := "client"
  current_agent : String := "router"
  conversation_history : List Message := []
  context_data : ContextData := {}
  last_user_input : String := ""
  agent_response : String := ""
  needs_human_intervention : Bool := false
  escalation_reason : String := ""
deriving DecidableEq, Repr

/-- A persisted per-agent state blob (`save_agent_state` /
`get_agent_state`): the union of the keys the agents store.  No agent
ever persists a `needs_human_intervention` key. -/
structure AgentBlob where
  expedition_state : Option String := none
  selected_plan : Option String := none
  client_data : Option ClientData := none
  quotation_available : Option Bool := none
  quotation_state : Option String := none
  awaiting_plan_selection : Option Bool := none
  expedition_executed : Option Bool := none
  success : Option Bool := none
  policy_number : Option String := none
  escalation_executed : Option Bool := none
  escalation_reason : Option String := none
deriving DecidableEq, Repr

/-- The persistent store: sessions, append-only message log, per-agent
blobs, quotations, issued policies (`utils/database.py`). -/
structure Database where
  sessions : List String := []
  messages : List (String × String × String) := []
  agent_states : List ((String × String) × AgentBlob) := []
  quotations : List (String × Quotation) := []
  policies : List (String × String) := []
deriving DecidableEq, Repr

/-- `db_manager.get_agent_state(session_id, agent)`. -/
def Database.getAgentState (db : Database) (sid agent : String) : Option AgentBlob :=
  (db.agent_states.find? fun e => e.1 = (sid, agent)).map (·.2)

/-- `db_manager.get_session`: whether a session record exists. -/
def Database.hasSession (db : Database) (sid : String) : Bool :=
  db.sessions.contains sid

/-- Latest quotation row for a session (`SELECT ... ORDER BY created_at
DESC LIMIT 1` — the embedding keeps the newest row first). -/
def Database.latestQuotation (db : Database) (sid : String) : Option Quotation :=
  (db.quotations.find? fun e => e.1 = sid).map (·.2)

/-- `db_manager.save_policy`. -/
def Database.savePolicy (db : Database) (policyNumber sid : String) : Database :=
  { db with policies := (policyNumber, sid) :: db.policies }

/-- `db_manager.save_agent_state` (upsert of the per-agent blob). -/
def Database.saveAgentState (db : Database) (sid agent : String) (b : AgentBlob) : Database :=
  { db with agent_states :=
      ((sid, agent), b) :: db.agent_states.filter fun e => e.1 ≠ (sid, agent) }

/-- `db_manager.add_message` (append-only log). -/
def Database.addMessage (db : Database) (sid agent content : String) : Database :=
  { db with messages := db.messages ++ [(sid, agent, content)] }

/-- `db_manager.create_session`. -/
def Database.createSession (db : Database) (sid : String) : Database :=
  { db with sessions := sid :: db.sessions }

/-! ## Handler `can_handle` heuristics
(`expedition_agent.py`, `quotation_agent.py`, `consultant_agent.py`,
`human_loop_agent.py`) -/

/-- `ExpeditionAgent.STATES.values()`. -/
def expeditionStates : List String :=
  ["needs_quotation", "requesting_client_data", "validating_data",
   "confirming_purchase", "processing_expedition", "expedition_completed"]

/-- `QuotationAgent.STATES.values()`. -/
def quotationStates : List String :=
  ["awaiting_image", "analyzing_image", "awaiting_details",
   "generating_quote", "quote_ready"]

/-- `ExpeditionAgent.expedition_keywords`. -/
def expeditionKeywords : List String :=
  ["comprar", "adquirir", "expedir", "emitir", "contratar",
   "quiero la póliza", "proceder", "acepto", "confirmo",
   "datos personales", "cédula", "teléfono"]

/-- `ExpeditionAgent.can_handle` (lines 44-72). -/
def expedition_can_handle (input : String) (ctx : ContextData) : Bool :=
  let l := lowerStr input
  let hasKw := anyKeyword l expeditionKeywords
  let isTransfer := ctx.transfer_to = some "expedition"
  let inProcess :=
    match ctx.expedition_state with
    | some st => expeditionStates.contains st
    | none => false
  hasKw || isTransfer || inProcess

/-- `QuotationAgent.quotation_keywords`. -/
def quotationKeywords : List String :=
  ["quiero cotizar", "necesito cotización", "cotizar mi",
   "precio del seguro", "cuánto me cuesta el seguro",
   "imagen del vehículo", "foto del vehículo"]

/-- The `simple_words` guard list of `QuotationAgent.can_handle`. -/
def quotationSimpleWords : List String :=
  ["entonces", "bien", "si", "ok", "hola", "como estas", "bueno", "gracias"]

/-- `vehicle_indicators` of `QuotationAgent.can_handle`. -/
def vehicleIndicators : List String :=
  ["modelo", "marca", "año", "línea", "color", "clase",
   "ford", "toyota", "chevrolet", "nissan", "hyundai", "honda", "mazda",
   "automóvil", "camioneta", "suv", "sedan", "hatchback",
   "2020", "2021", "2022", "2023", "2024", "2025",
   "no sé", "no se", "no conozco", "no tengo idea"]

/-- Image-mention words of `QuotationAgent.can_handle`. -/
def imageMentionWords : List String :=
  ["imagen", "foto", "fotografía", "picture", "subida", "adjunta"]

/-- `explicit_quotation_keywords` of `QuotationAgent.can_handle`. -/
def explicitQuotationKeywords : List String :=
  ["cotizar", "cotización", "quiero cotizar", "precio seguro",
   "valor póliza", "cuánto cuesta"]

/-- `QuotationAgent.can_handle`.  `dbQuotationState` is the
`quotation_state` recovered from the persisted quotation blob when the
live context has none and a `session_id` was injected into the context
(the orchestrator does that for classifier/fallback calls; the
active-flow check passes the raw context and hence `none`). -/
def quotation_can_handle (input : String) (ctx : ContextData)
    (dbQuotationState : Option String) : Bool :=
  let l := stripStr (lowerStr input)
  if wordCount l ≤ 2 && anyKeyword l quotationSimpleWords then false
  else
    let hasVehicleInfo := anyKeyword l vehicleIndicators
    let hasImageMention := anyKeyword l imageMentionWords
    let hasExplicit := anyKeyword l explicitQuotationKeywords
    let hasKw := anyKeyword l quotationKeywords && wordCount l > 1
    let hasQuotationCtx :=
      match ctx.quotation_state with
      | some st => quotationStates.contains st
      | none => false
    let inProcess :=
      hasQuotationCtx ||
        (match dbQuotationState with
         | some st => quotationStates.contains st
         | none => false)
    hasExplicit || (hasKw && l.length > 10) ||
      (ctx.has_image && hasQuotationCtx) || inProcess ||
      (hasVehicleInfo && l.length > 5) || (hasImageMention && l.length > 10)

/-- `ConsultantAgent.priority_consultation_phrases`. -/
def priorityConsultationPhrases : List String :=
  ["qué cubre", "qué incluye", "plan básico", "plan clásico", "plan global",
   "diferencia entre", "cómo funciona", "coberturas del", "beneficios del"]

/-- `ConsultantAgent.consultation_keywords`. -/
def consultationKeywords : List String :=
  ["cobertura", "plan", "póliza", "seguro", "deducible", "prima",
   "asistencia", "beneficio", "condiciones", "exclusiones", "vigencia",
   "daños", "hurto", "terceros", "vidrios", "llaves", "requisitos"]

/-- `ConsultantAgent.greeting_keywords`. -/
def greetingKeywords : List String :=
  ["hola", "buenos días", "buenas tardes", "buenas noches",
   "buen día", "saludos", "holi", "hello", "hi", "hey",
   "qué tal", "cómo está", "ayuda", "información", "ayudar"]

/-- `ConsultantAgent.can_handle` (lines 48-97). -/
def consultant_can_handle (input : String) : Bool :=
  let l := lowerStr input
  if anyKeyword l priorityConsultationPhrases then true
  else
    let hasConsultKw := anyKeyword l consultationKeywords
    let hasGreeting := anyKeyword l greetingKeywords
    let isExplicitQuotation :=
      anyKeyword l ["quiero cotizar", "cotizar mi vehículo", "precio del seguro"]
    let isExplicitExpedition :=
      anyKeyword l ["comprar póliza", "expedir póliza", "emitir póliza"]
    let isConversational :=
      wordCount l ≤ 3 && !(isExplicitQuotation || isExplicitExpedition)
    (hasConsultKw && !(isExplicitQuotation || isExplicitExpedition)) ||
      hasGreeting || isConversational

/-- `HumanLoopAgent.human_request_keywords`. -/
def humanRequestKeywords : List String :=
  ["persona", "humano", "asesor", "agente", "representante",
   "hablar con alguien", "no entiendo", "esto no funciona",
   "quiero cancelar", "mal servicio", "problema", "error",
   "no me sirve", "necesito ayuda", "confundido"]

/-- Frustration vocabulary of `_detect_frustration_patterns`. -/
def frustrationWords : List String :=
  ["frustrado", "molesto", "enojado", "cansado", "harto",
   "perdiendo tiempo", "no entiende nada", "esto no funciona para nada"]

/-- Urgency signs of `_detect_frustration_patterns`, checked against the
upper-cased input. -/
def urgencySigns : List String := ["!!!", "???", "AYUDA", "URGENTE", "YA"]

/-- `_detect_frustration_patterns`. -/
def detect_frustration (input : String) : Bool :=
  anyKeyword (lowerStr input) frustrationWords ||
    anyKeyword (upperStr input) urgencySigns

/-- `_detect_abandonment_or_stagnation`: the function reads
`context.get("conversation_history", [])`, and no code path ever stores a
`conversation_history` key in `context_data` (the history lives in a
separate `AgentState` field), so the `len < 12` guard always fires and
the similarity/timestamp logic is unreachable here. -/
def detect_abandonment (_ctx : ContextData) : Bool := false

/-- `HumanLoopAgent.can_handle` (lines 32-55). -/
def human_can_handle (input : String) (ctx : ContextData) : Bool :=
  anyKeyword (lowerStr input) humanRequestKeywords ||
    detect_frustration input || ctx.needs_human_key ||
    detect_abandonment ctx

/-! ## Orchestrator routing (`src/agents/orchestrator.py`) -/

/-- The names registered in `self.agents`. -/
def agentNames : List String :=
  ["consultant", "quotation", "expedition", "human_loop"]

/-- Dispatch of `agent.can_handle` by agent name (`self.agents[...]`). -/
def agent_can_handle (name input : String) (ctx : ContextData)
    (dbQuotationState : Option String) : Bool :=
  if name = "consultant" then consultant_can_handle input
  else if name = "quotation" then quotation_can_handle input ctx dbQuotationState
  else if name = "expedition" then expedition_can_handle input ctx
  else if name = "human_loop" then human_can_handle input ctx
  else false

/-- `_should_escalate_to_human` (lines 410-418). -/
def should_escalate_to_human (s : AgentState) : Bool :=
  s.needs_human_intervention ||
    human_can_handle s.last_user_input s.context_data

/-- `_check_active_flows` (lines 294-326).  The `can_handle` probe of the
current agent receives the raw `context_data` (no `session_id` key), so
the quotation agent's storage fallback is not consulted there. -/
def check_active_flows (s : AgentState) : Option String :=
  if s.context_data.expedition_state.isSome then some "expedition"
  else if s.context_data.quotation_state = some "awaiting_details" ∨
      s.context_data.quotation_state = some "analyzing_image" ∨
      s.context_data.quotation_state = some "awaiting_image" then
    some "quotation"
  else if s.needs_human_intervention then some "human_loop"
  else if s.current_agent ≠ "router" ∧ agentNames.contains s.current_agent ∧
      agent_can_handle s.current_agent s.last_user_input s.context_data none then
    some s.current_agent
  else none

/-- A classifier verdict: `classify_intent` output as the orchestrator
consumes it.  Confidences are exact decimals in the source (0.5-0.8), so
they are represented in hundredths (`50` is the Python `0.5`). -/
structure Classification where
  intent : String
  agent : String
  confidence : Nat
deriving DecidableEq, Repr

/-- `IntentClassifier._fallback_classification` (classifier lines
222-238), the deterministic keyword fallback. -/
def fallback_classification (input : String) : Classification :=
  let l := lowerStr input
  if anyKeyword l ["cotizar", "cotización", "cuánto cuesta"] then
    { intent := "quotation_request", agent := "quotation", confidence := 70 }
  else if anyKeyword l ["comprar", "acepto", "proceder"] then
    { intent := "purchase_intent", agent := "expedition", confidence := 70 }
  else if anyKeyword l ["asesor", "humano", "persona"] then
    { intent := "human_request", agent := "human_loop", confidence := 80 }
  else
    { intent := "consultation", agent := "consultant", confidence := 60 }

/-- The verdict `classify_intent` produces when its own LLM call raises
(classifier lines 101-108). -/
def classifierErrorFallback : Classification :=
  { intent := "consultation", agent := "consultant", confidence := 50 }

/-- `_fallback_routing_traditional` (lines 386-408): fixed priority
expedition > quotation > consultant, defaulting to consultant.  The
context passed to the agents carries the `session_id`, so the quotation
probe may consult the persisted quotation blob. -/
def fallback_routing_traditional (db : Database) (s : AgentState) : String :=
  let dbQS := (db.getAgentState s.session_id "quotation").bind
    (·.quotation_state)
  if expedition_can_handle s.last_user_input s.context_data then "expedition"
  else if quotation_can_handle s.last_user_input s.context_data dbQS then
    "quotation"
  else if consultant_can_handle s.last_user_input then "consultant"
  else "consultant"

/-- The active-flow / classifier / fallback tail of
`_determine_next_agent`, after the escalation and transfer checks. -/
def determine_next_agent_tail (cls : Classification) (db : Database)
    (s : AgentState) : String × AgentState :=
  match check_active_flows s with
  | some a => (a, s)
  | none =>
    let dbQS := (db.getAgentState s.session_id "quotation").bind
      (·.quotation_state)
    if agentNames.contains cls.agent ∧
        (cls.confidence > 60 ∨
          agent_can_handle cls.agent s.last_user_input s.context_data dbQS) then
      (cls.agent, s)
    else
      (fallback_routing_traditional db s, s)

/-- `_determine_next_agent` (lines 328-384), parameterised by the
classifier verdict `cls` (the LLM call is external; `classify_intent`
never raises — its failure value is `classifierErrorFallback`). -/
def determine_next_agent (cls : Classification) (db : Database)
    (s : AgentState) : String × AgentState :=
  if should_escalate_to_human s then ("human_loop", s)
  else
    match s.context_data.transfer_to with
    | some t =>
      if agentNames.contains t then
        (t, { s with context_data := { s.context_data with transfer_to := none } })
      else
        determine_next_agent_tail cls db s
    | none => determine_next_agent_tail cls db s

/-- The post-handler routing verdict of `_check_post_agent_routing`:
the string returned to LangGraph. -/
inductive Route where
  | human_loop
  | end_
  | transfer (target : String)
  | final_response
deriving DecidableEq, Repr

/-- `_check_post_agent_routing` (lines 440-491).  Returns the routing
verdict together with the (possibly flag-cleared) state. -/
def check_post_agent_routing (s : AgentState) : Route × AgentState :=
  if s.needs_human_intervention then (Route.human_loop, s)
  else if s.context_data.force_end then
    (Route.end_, { s with context_data := { s.context_data with force_end := false } })
  else
    let tail : Route × AgentState :=
      if s.current_agent = "quotation" then
        if s.context_data.quotation_state = some "quote_ready" then
          (Route.final_response, s)
        else if s.context_data.awaiting_user_response then (Route.end_, s)
        else (Route.final_response, s)
      else (Route.final_response, s)
    match s.context_data.transfer_to with
    | some t =>
      if t = "quotation" ∨ t = "expedition" ∨ t = "consultant" then
        (Route.transfer t,
          { s with context_data := { s.context_data with transfer_to := none } })
      else tail
    | none => tail

/-- One turn-processing cycle viewed as a hop sequence: run the named
handler (`handler` abstracts the agents' `process`), apply
`_check_post_agent_routing`, and continue while it keeps returning a
`transfer` verdict.  `fuel` bounds the unrolling only; the routing logic
itself imposes no hop counter. -/
def hopTrace (handler : String → AgentState → AgentState) :
    Nat → String → AgentState → List (String × Route)
  | 0, _, _ => []
  | fuel + 1, name, s =>
    let s1 := handler name { s with current_agent := name }
    let (r, s2) := check_post_agent_routing s1
    (name, r) ::
      (match r with
       | Route.transfer t => hopTrace handler fuel t s2
       | _ => [])

/-- A handler pair that always hands off to each other: consultant sets
`transfer_to = quotation` and quotation sets `transfer_to = consultant`
on every invocation (the test construction named by the spec's loop
termination property). -/
def pingpongHandler : String → AgentState → AgentState := fun name s =>
  if name = "consultant" then
    { s with current_agent := name,
             context_data := { s.context_data with transfer_to := some "quotation" } }
  else if name = "quotation" then
    { s with current_agent := name,
             context_data := { s.context_data with transfer_to := some "consultant" } }
  else s

/-! ## Session-state rehydration and the turn entry point
(`orchestrator.py` `_get_or_create_state`, `_add_user_message_to_history`,
`process_user_input`) -/

/-- Key-wise dictionary update: a key present in the new blob overwrites
the old value. -/
def mergeKey {α : Type} (new old : Option α) : Option α :=
  match new with
  | some v => some v
  | none => old

/-- Dictionary-update of the context by a persisted blob: keys present in
the blob overwrite (`existing_context.update(agent_state)`). -/
def applyBlob (ctx : ContextData) (b : AgentBlob) : ContextData :=
  { ctx with
    expedition_state := mergeKey b.expedition_state ctx.expedition_state
    selected_plan := mergeKey b.selected_plan ctx.selected_plan
    client_data := mergeKey b.client_data ctx.client_data
    quotation_state := mergeKey b.quotation_state ctx.quotation_state }

/-- `_get_or_create_state` (lines 210-261): loads history, merges the
persisted blobs of all four agents in fixed order (later overwrite
earlier), applies the caller's extra context update, and builds the
fresh turn state.  The `needs_human_intervention` field is not among the
constructor arguments, so it always starts `false`. -/
def get_or_create_state (db : Database) (sid userType : String)
    (extra : ContextData → ContextData) : AgentState × Database :=
  if db.hasSession sid then
    let history := (db.messages.filter fun m => m.1 = sid).map fun m =>
      { role := if m.2.1 = "user" then "user" else "assistant",
        content := m.2.2, agent := m.2.1 : Message }
    let ctx := ["quotation", "expedition", "consultant", "human_loop"].foldl
      (fun c a =>
        match db.getAgentState sid a with
        | some b => applyBlob c b
        | none => c)
      ({} : ContextData)
    ({ session_id := sid, user_type := userType, current_agent := "router",
       conversation_history := history, context_data := extra ctx }, db)
  else
    ({ session_id := sid, user_type := userType, current_agent := "router",
       conversation_history := [], context_data := extra {} },
      db.createSession sid)

/-- `_add_user_message_to_history` (lines 263-283): appends to the
in-memory history and persists the message immediately. -/
def add_user_message_to_history (db : Database) (s : AgentState)
    (input : String) : AgentState × Database :=
  ({ s with conversation_history :=
      s.conversation_history ++ [{ role := "user", content := input, agent := "user" }] },
    db.addMessage s.session_id "user" input)

/-- Outcome of the compiled LangGraph workflow (`self.app.ainvoke`): a
final state, or an exception escaping all handler/routing guards. -/
inductive WorkflowOutcome where
  | ok (finalState : AgentState)
  | exc (msg : String)

/-- The envelope returned by `process_user_input`. -/
structure OrchestratorResponse where
  success : Bool
  content : String
  rtype : String
  session_id : String
  agent : Option String := none
  errorField : Option String := none
deriving DecidableEq, Repr

/-- The fallback content of the top-level `except` branch of
`process_user_input` (lines 195-208). -/
def genericErrorContent : String :=
  "😅 **¡Ups! Algo salió mal momentáneamente.**\n\n🔄 **Puedes intentar:**\n• Reformular tu consulta de manera más simple\n• Si buscas cotización: 'Quiero cotizar mi Toyota 2020'\n• Si tienes preguntas: 'Cuáles son los planes disponibles'\n\n🤝 **¿Necesitas ayuda inmediata?** Escribe 'hablar con asesor' y te conectaré con un humano."

/-- `_format_orchestrator_response` (success path, restricted to the
envelope fields the claims mention). -/
def format_orchestrator_response (s : AgentState) : OrchestratorResponse :=
  { success := true, content := s.agent_response, rtype := "agent_response",
    session_id := s.session_id, agent := some s.current_agent }

/-- `process_user_input` (lines 139-208): create/rehydrate the state,
record the user message (a database write), run the workflow, and format
the reply; any exception from the workflow is caught once at the top and
becomes the generic `success=False` envelope.  The database returned is
the store as of the catch point: the session creation and the user
message appended before the workflow are not rolled back. -/
def process_user_input (db : Database) (workflow : AgentState → WorkflowOutcome)
    (sid input userType : String) (extra : ContextData → ContextData) :
    OrchestratorResponse × Database :=
  let r0 := get_or_create_state db sid userType extra
  let st1 := { r0.1 with last_user_input := input }
  let r1 := add_user_message_to_history r0.2 st1 input
  match workflow r1.1 with
  | WorkflowOutcome.ok r => (format_orchestrator_response r, r1.2)
  | WorkflowOutcome.exc m =>
    ({ success := false, content := genericErrorContent, rtype := "error",
       session_id := sid, errorField := some m }, r1.2)

/-! ## Issuance (expedition) handler
(`src/agents/expedition_agent.py`) -/

/-- Truthiness of `current_quotation.get("quotations")`. -/
def hasQuotations : Option Quotation → Bool
  | some q => !q.plans.isEmpty
  | none => false

/-- A required field is missing when the key is absent or its value is
falsy (`field not in client_data or not client_data[field]`). -/
def fieldMissing : Option String → Bool
  | none => true
  | some v => v = ""

/-- The `missing_fields` computation of `_process_client_data` over the
required fields `identificacion_tomador`, `celular_tomador`,
`email_tomador`. -/
def missingFields (cd : ClientData) : List String :=
  (if fieldMissing cd.identificacion_tomador then ["identificacion_tomador"] else []) ++
    (if fieldMissing cd.celular_tomador then ["celular_tomador"] else []) ++
    (if fieldMissing cd.email_tomador then ["email_tomador"] else [])

/-- Non-empty validation-error dict. -/
def hasValidationErrors (e : ValidationErrors) : Bool :=
  e.identificacion_tomador.isSome || e.celular_tomador.isSome ||
    e.email_tomador.isSome

/-- `combined_data = partial_data.copy(); combined_data.update(parsed)`:
the merge of `_process_client_data` lines 308-312.  Freshly parsed keys
overwrite, absent keys keep the stored partial value. -/
def mergeClientData (stored parsed : ClientData) : ClientData :=
  { nombre_tomador := mergeKey parsed.nombre_tomador stored.nombre_tomador
    identificacion_tomador :=
      mergeKey parsed.identificacion_tomador stored.identificacion_tomador
    celular_tomador := mergeKey parsed.celular_tomador stored.celular_tomador
    email_tomador := mergeKey parsed.email_tomador stored.email_tomador }

/-- Value of a leading decimal-digit run (used by the `^(\d+)` match of
`_parse_plan_selection` and by `int(...)`). -/
def digitsVal (cs : List Char) : Nat :=
  cs.foldl (fun n c => 10 * n + (c.toNat - '0'.toNat)) 0

/-- The text-matching tail of `_parse_plan_selection`: literal plan-name
substring first, then the plan-family keywords. -/
def planTextSelection (l : String) (available : List String) : Option String :=
  match available.find? fun p => strContains l (lowerStr p) with
  | some p => some p
  | none =>
    let family : String → Option String := fun kw =>
      if strContains l kw then
        available.find? fun p => strContains (lowerStr p) kw
      else none
    match family "basico" with
    | some p => some p
    | none =>
      match family "clasico" with
      | some p => some p
      | none => family "global"

/-- `_parse_plan_selection` (lines 790-838): numeric selection, a number
at the start of the text, a literal plan-name substring, then the
`basico` / `clasico` / `global` keyword families. -/
def parse_plan_selection (input : String) (quotation : Option Quotation) :
    Option String :=
  match quotation with
  | none => none
  | some q =>
    let available := q.plans
    let l := stripStr (lowerStr input)
    let byIndex : Nat → Option String := fun n =>
      if 1 ≤ n ∧ n - 1 < available.length then available.get? (n - 1) else none
    if isDigits l then
      match byIndex (digitsVal l.data) with
      | some p => some p
      | none => planTextSelection l available
    else
      let lead := l.data.takeWhile Char.isDigit
      if !lead.isEmpty then
        match byIndex (digitsVal lead) with
        | some p => some p
        | none => planTextSelection l available
      else planTextSelection l available

/-- Client-facing message of `_no_quotation_available`. -/
def noQuotationMessage : String :=
  "Para proceder con la expedición de una póliza, primero necesito generar una cotización. ¿Te gustaría que te ayude a cotizar tu seguro de autos?"

/-- `_no_quotation_available` (lines 628-649): keep the issuance state in
`needs_quotation`, request a hand-off to the quotation agent, persist the
blob and answer the user. -/
def no_quotation_available (db : Database) (s : AgentState) :
    AgentState × Database :=
  let ctx := { s.context_data with
    expedition_state := some "needs_quotation"
    transfer_to := some "quotation"
    previous_agent := some "expedition" }
  let db1 := db.saveAgentState s.session_id "expedition"
    { expedition_state := some "needs_quotation", quotation_available := some false }
  let db2 := db1.addMessage s.session_id "expedition" noQuotationMessage
  let hist := s.conversation_history ++
    [{ role := "assistant", content := noQuotationMessage, agent := "expedition" }]
  ({ s with context_data := ctx,
            current_agent := "expedition",
            agent_response := noQuotationMessage,
            conversation_history := hist }, db2)

/-- Message of `_request_plan_selection` (content abridged; only the
routing effect matters to the claims). -/
def planSelectionMessage : String :=
  "Perfecto! Para proceder con la expedición, necesito que selecciones el plan que te interesa."

/-- Message of `_request_client_data` (content abridged). -/
def clientDataRequestMessage : String :=
  "Para proceder con la expedición de tu póliza, necesito los siguientes datos: cédula, celular y correo electrónico."

/-- `_start_expedition_process` (lines 200-243): validate that a
quotation with plans is present, then either ask for a plan selection
(several plans) or fix the single plan and request the client data. -/
def start_expedition_process (db : Database) (s : AgentState) :
    AgentState × Database :=
  match s.context_data.current_quotation with
  | some q =>
    match q.plans with
    | [] => no_quotation_available db s
    | p :: rest =>
      if rest.isEmpty then
        let ctx := { s.context_data with
          selected_plan := some p
          expedition_state := some "requesting_client_data" }
        let db1 := db.saveAgentState s.session_id "expedition"
          { expedition_state := some "requesting_client_data",
            selected_plan := some p, quotation_available := some true }
        let db2 := db1.addMessage s.session_id "expedition" clientDataRequestMessage
        let hist := s.conversation_history ++
          [{ role := "assistant", content := clientDataRequestMessage,
             agent := "expedition" }]
        ({ s with context_data := ctx,
                  current_agent := "expedition",
                  agent_response := clientDataRequestMessage,
                  conversation_history := hist }, db2)
      else
        let ctx := { s.context_data with
          expedition_state := some "requesting_client_data" }
        let db1 := db.saveAgentState s.session_id "expedition"
          { expedition_state := some "requesting_client_data",
            awaiting_plan_selection := some true, quotation_available := some true }
        let db2 := db1.addMessage s.session_id "expedition" planSelectionMessage
        let hist := s.conversation_history ++
          [{ role := "assistant", content := planSelectionMessage,
             agent := "expedition" }]
        ({ s with context_data := ctx,
                  current_agent := "expedition",
                  agent_response := planSelectionMessage,
                  conversation_history := hist }, db2)
  | none => no_quotation_available db s

/-- Escalation reason of the `NEEDS_QUOTATION` attempt cap (line 102). -/
def quotationUnrecoverableReason : String :=
  "No se pudo recuperar cotización después de múltiples intentos"

/-- The `NEEDS_QUOTATION` fragment of `ExpeditionAgent.process` (lines
96-155): escalate once `transfer_attempts` reaches the cap of 3,
otherwise proceed with a quotation found in context or storage, or
increment the counter and hand off to the quotation agent again. -/
def process_needs_quotation (db : Database) (s : AgentState) :
    AgentState × Database :=
  let attempts := s.context_data.transfer_attempts
  if attempts ≥ 3 then
    ({ s with needs_human_intervention := true,
              escalation_reason := quotationUnrecoverableReason }, db)
  else if s.context_data.current_quotation.isSome then
    start_expedition_process db s
  else if s.context_data.expedition_ready then
    match db.latestQuotation s.session_id with
    | some q =>
      let s1 := { s with context_data := { s.context_data with
        current_quotation := some q, expedition_ready := false } }
      start_expedition_process db s1
    | none =>
      let s1 := { s with context_data := { s.context_data with
        transfer_attempts := attempts + 1 } }
      no_quotation_available db s1
  else
    let s1 := { s with context_data := { s.context_data with
      transfer_attempts := attempts + 1 } }
    no_quotation_available db s1

/-- Outcome of one call to the issuance backend
(`expedition_service.expedite_policy`): the service catches its own
exceptions, so the caller always receives a success flag. -/
inductive ExpeditionOutcome where
  | success (numeroPoliza : String)
  | failure (err : String)
deriving DecidableEq, Repr

/-- Client-facing message of `_format_success_response` (abridged). -/
def expeditionSuccessMessage (numeroPoliza : String) : String :=
  "🎉 **¡Felicitaciones! Tu póliza ha sido expedida exitosamente.** Número de póliza: " ++ numeroPoliza

/-- Client-facing message of `_format_error_response` (abridged to the
part carrying the backend error). -/
def expeditionErrorMessage (err : String) : String :=
  "Lo siento, ocurrió un problema durante la expedición de tu póliza. **Error:** " ++ err

/-- `_execute_expedition` (lines 453-597), parameterised by the backend
outcome `svc`.  Returns the updated state and store together with the
number of backend calls made on this path (the code has a single call
site and no retry).  The recovery branches mirror the code: client data
from context or the persisted expedition blob, quotation from context or
the quotations table, and a missing plan restarts the expedition process
without calling the backend. -/
def execute_expedition (db : Database) (svc : ExpeditionOutcome)
    (s : AgentState) : (AgentState × Database) × Nat :=
  let s := { s with context_data := { s.context_data with
    expedition_state := some "processing_expedition" } }
  let clientData :=
    match s.context_data.client_data with
    | some cd => some cd
    | none => (db.getAgentState s.session_id "expedition").bind (·.client_data)
  match clientData with
  | none =>
    (({ s with needs_human_intervention := true,
               escalation_reason := "Error técnico: datos del cliente no disponibles" },
      db), 0)
  | some cd =>
    let s := { s with context_data := { s.context_data with
      client_data := some cd } }
    let quotation :=
      match s.context_data.current_quotation with
      | some q => some q
      | none => db.latestQuotation s.session_id
    match quotation with
    | none =>
      (({ s with needs_human_intervention := true,
                 escalation_reason := "Error técnico: cotización no disponible" },
        db), 0)
    | some q =>
      let s := { s with context_data := { s.context_data with
        current_quotation := some q } }
      match s.context_data.selected_plan with
      | none => (start_expedition_process db s, 0)
      | some plan =>
        match svc with
        | ExpeditionOutcome.success n =>
          let msg := expeditionSuccessMessage n
          let db1 := db.savePolicy n s.session_id
          let ctx := { s.context_data with
            expedition_result := some n
            expedition_state := some "expedition_completed" }
          let db2 := db1.saveAgentState s.session_id "expedition"
            { expedition_executed := some true, success := some true,
              policy_number := some n, client_data := some cd,
              selected_plan := some plan }
          let db3 := db2.addMessage s.session_id "expedition" msg
          let hist := s.conversation_history ++
            [{ role := "assistant", content := msg, agent := "expedition" }]
          (({ s with context_data := ctx,
                     current_agent := "expedition",
                     agent_response := msg,
                     conversation_history := hist }, db3), 1)
        | ExpeditionOutcome.failure e =>
          let msg := expeditionErrorMessage e
          let db2 := db.saveAgentState s.session_id "expedition"
            { expedition_executed := some true, success := some false,
              policy_number := none, client_data := some cd,
              selected_plan := some plan }
          let db3 := db2.addMessage s.session_id "expedition" msg
          let hist := s.conversation_history ++
            [{ role := "assistant", content := msg, agent := "expedition" }]
          (({ s with current_agent := "expedition",
                     agent_response := msg,
                     conversation_history := hist,
                     needs_human_intervention := true,
                     escalation_reason := "Error en expedición: " ++ e }, db3), 1)

/-- The short answers accepted outright as confirmation
(`_process_purchase_confirmation` line 421). -/
def confirmationShortList : List String := ["1", "si", "s", "y", "yes", "ok"]

/-- `confirmation_words` of `_process_purchase_confirmation`. -/
def confirmationWords : List String :=
  ["sí", "si", "confirmo", "acepto", "correcto", "proceder", "continuar",
   "ok", "vale"]

/-- `cancellation_words` of `_process_purchase_confirmation`. -/
def cancellationWords : List String :=
  ["no", "cancelar", "cambiar", "modificar", "negar"]

/-- The code's affirmative test: a short-list answer or any confirmation
word occurring in the lower-cased input (checked before cancellation). -/
def isAffirmativeConfirmation (input : String) : Bool :=
  let l := lowerStr input
  confirmationShortList.contains (stripStr l) || anyKeyword l confirmationWords

/-- The code's negative test, reached only when the affirmative test
fails: some cancellation word occurs in the input. -/
def isNegativeConfirmation (input : String) : Bool :=
  anyKeyword (lowerStr input) cancellationWords

/-- Message of the cancellation branch (abridged). -/
def confirmationChangeMessage : String :=
  "Entiendo que quieres hacer cambios. ¿Qué te gustaría modificar?"

/-- Message of the ambiguous-input branch (abridged). -/
def confirmationRepromptMessage : String :=
  "Por favor confirma si deseas proceder con la expedición escribiendo una respuesta clara."

/-- `_process_purchase_confirmation` (lines 412-451): affirmative input
executes the expedition, a cancellation word returns the flow to
`requesting_client_data`, anything else re-prompts without touching the
expedition state. -/
def process_purchase_confirmation (db : Database) (svc : ExpeditionOutcome)
    (s : AgentState) : (AgentState × Database) × Nat :=
  if isAffirmativeConfirmation s.last_user_input then
    execute_expedition db svc s
  else if isNegativeConfirmation s.last_user_input then
    let ctx := { s.context_data with
      expedition_state := some "requesting_client_data" }
    let db1 := db.addMessage s.session_id "expedition" confirmationChangeMessage
    let hist := s.conversation_history ++
      [{ role := "assistant", content := confirmationChangeMessage,
         agent := "expedition" }]
    (({ s with context_data := ctx,
               current_agent := "expedition",
               agent_response := confirmationChangeMessage,
               conversation_history := hist }, db1), 0)
  else
    let db1 := db.addMessage s.session_id "expedition" confirmationRepromptMessage
    let hist := s.conversation_history ++
      [{ role := "assistant", content := confirmationRepromptMessage,
         agent := "expedition" }]
    (({ s with current_agent := "expedition",
               agent_response := confirmationRepromptMessage,
               conversation_history := hist }, db1), 0)

/-- Message of `_request_comprehensive_data` (abridged). -/
def comprehensiveDataMessage : String :=
  "🚀 **Para completar tu expedición, necesito los datos faltantes.**"

/-- Message of `_request_data_correction` (abridged). -/
def dataCorrectionMessage : String :=
  "He encontrado algunos problemas con los datos proporcionados. Por favor corrige la información y envíala nuevamente."

/-- Message of `_request_purchase_confirmation` (abridged). -/
def purchaseConfirmationMessage : String :=
  "**Resumen de tu póliza.** ¿Confirmas que toda la información está correcta y deseas proceder con la expedición?"

/-- The tail of `_process_client_data` shared by the "plan already
selected" path and the "no plan parsed" path (lines 305-410): accumulate
the parsed fields into the stored partial data, request whatever is still
missing, validate formats, and otherwise move to `confirming_purchase`
(escalating if the plan or the quotation has been lost). -/
def process_client_data_merge (db : Database) (parsed : ClientData)
    (s : AgentState) : AgentState × Database :=
  let combined := mergeClientData s.context_data.partial_client_data parsed
  let s := { s with context_data := { s.context_data with
    partial_client_data := combined } }
  if !(missingFields combined).isEmpty then
    let db1 := db.addMessage s.session_id "expedition" comprehensiveDataMessage
    let hist := s.conversation_history ++
      [{ role := "assistant", content := comprehensiveDataMessage,
         agent := "expedition" }]
    ({ s with current_agent := "expedition",
              agent_response := comprehensiveDataMessage,
              conversation_history := hist }, db1)
  else if hasValidationErrors (validate_client_data combined) then
    let db1 := db.addMessage s.session_id "expedition" dataCorrectionMessage
    let hist := s.conversation_history ++
      [{ role := "assistant", content := dataCorrectionMessage,
         agent := "expedition" }]
    ({ s with current_agent := "expedition",
              agent_response := dataCorrectionMessage,
              conversation_history := hist }, db1)
  else
    match s.context_data.selected_plan with
    | none =>
      ({ s with needs_human_intervention := true,
                escalation_reason := "Error técnico: plan no seleccionado" }, db)
    | some plan =>
      let quotation :=
        match s.context_data.current_quotation with
        | some q => some q
        | none => db.latestQuotation s.session_id
      match quotation with
      | none =>
        ({ s with needs_human_intervention := true,
                  escalation_reason := "No se encontró cotización para confirmación" },
          db)
      | some q =>
        let ctx := { s.context_data with
          current_quotation := some q
          client_data := some (mergeClientData s.context_data.partial_client_data parsed)
          expedition_state := some "confirming_purchase" }
        let db1 := db.saveAgentState s.session_id "expedition"
          { expedition_state := some "confirming_purchase",
            client_data := some (mergeClientData s.context_data.partial_client_data parsed),
            selected_plan := some plan,
            quotation_available := some true }
        let db2 := db1.addMessage s.session_id "expedition" purchaseConfirmationMessage
        let hist := s.conversation_history ++
          [{ role := "assistant", content := purchaseConfirmationMessage,
             agent := "expedition" }]
        ({ s with context_data := ctx,
                  current_agent := "expedition",
                  agent_response := purchaseConfirmationMessage,
                  conversation_history := hist }, db2)

/-- `_process_client_data` (lines 245-410), parameterised by the
extraction result `parsed` (`_parse_client_data` output, LLM or regex).
With no plan selected yet it first recovers the quotation (context, then
storage) and tries to read the input as a plan selection; in every other
case it falls through to the accumulation tail
`process_client_data_merge`. -/
def process_client_data (db : Database) (parsed : ClientData)
    (s : AgentState) : AgentState × Database :=
  match s.context_data.selected_plan with
  | some _ => process_client_data_merge db parsed s
  | none =>
    let cq :=
      if hasQuotations s.context_data.current_quotation then
        s.context_data.current_quotation
      else
        match db.latestQuotation s.session_id with
        | some q => some q
        | none => s.context_data.current_quotation
    let s := { s with context_data := { s.context_data with
      current_quotation := cq } }
    match parse_plan_selection s.last_user_input cq with
    | none => process_client_data_merge db parsed s
    | some plan =>
      let ctx := { s.context_data with
        selected_plan := some plan
        expedition_state := some "requesting_client_data" }
      let db1 := db.saveAgentState s.session_id "expedition"
        { expedition_state := some "requesting_client_data",
          selected_plan := some plan, quotation_available := some true }
      let db2 := db1.addMessage s.session_id "expedition" clientDataRequestMessage
      let hist := s.conversation_history ++
        [{ role := "assistant", content := clientDataRequestMessage,
           agent := "expedition" }]
      ({ s with context_data := ctx,
                current_agent := "expedition",
                agent_response := clientDataRequestMessage,
                conversation_history := hist }, db2)

/-! ## Consultation handler (`src/agents/consultant_agent.py`) -/

/-- The configured retrieval threshold,
`config.rag.similarity_threshold = 0.3` (`utils/config.py` line 38, a
dataclass constant with no environment override), in hundredths. -/
def similarityThreshold : Nat := 30

/-- The lower confidence constant of `_get_low_confidence_response`
(line 330, the Python `0.4`), in hundredths. -/
def lowConfidenceFloor : Nat := 40

/-- A reply of the retrieval backend (`rag_service.query`). -/
structure RagResult where
  answer : String
  /-- Confidence in hundredths (`30` is the Python `0.3`). -/
  confidence : Nat
  sources : List String
deriving DecidableEq, Repr

/-- Which branch of `ConsultantAgent.process` produced the reply. -/
inductive ConsultKind where
  | conversational
  | fallbackQA
  | formatted
  | caveat
  | decline
deriving DecidableEq, Repr

/-- Observable outcome of one `ConsultantAgent.process` call. -/
structure ConsultResult where
  kind : ConsultKind
  queriedRag : Bool
  withSources : Bool := false
deriving DecidableEq, Repr

/-- `_is_basic_greeting` (consultant lines 399-408). -/
def is_basic_greeting (input : String) : Bool :=
  let l := stripStr (lowerStr input)
  wordCount l ≤ 3 && anyKeyword l greetingKeywords

/-- `ConsultantAgent.process` (lines 99-163) restricted to its branch
structure: greeting/short inputs answer conversationally without touching
the backend; with the backend unavailable a static fallback answers; an
actual query formats the answer at `confidence ≥ similarity_threshold`
(attaching sources only above 0.8 with sources present), and otherwise
`_get_low_confidence_response` adds a caveat above 0.4 or declines
suggesting a human advisor at or below it. -/
def consultant_process (ragInitialized : Bool) (rag : RagResult)
    (input : String) : ConsultResult :=
  if is_basic_greeting input || wordCount input ≤ 2 then
    { kind := ConsultKind.conversational, queriedRag := false }
  else if !ragInitialized then
    { kind := ConsultKind.fallbackQA, queriedRag := false }
  else if rag.confidence ≥ similarityThreshold then
    { kind := ConsultKind.formatted, queriedRag := true,
      withSources := !rag.sources.isEmpty && rag.confidence > 80 }
  else if rag.confidence > lowConfidenceFloor then
    { kind := ConsultKind.caveat, queriedRag := true }
  else
    { kind := ConsultKind.decline, queriedRag := true }

/-! ## Theorems settling the claims -/

/-- C4 counterexample: the validator accepts the email `"a.b@com"`, which
contains `"@"` and a `"."` but whose domain segment (the part after the
`"@"`) has no dot — refuting "accepts an email field iff it contains
`"@"` and a domain segment with a dot". -/
theorem C4_counterexample :
    emailFieldAccepted "a.b@com" = true ∧
      specEmailDomainHasDot "a.b@com" = false := by
  exact ⟨by decide, by decide⟩

/-- C4 (amended): for whitespace-trimmed values, the identification field
is accepted iff it is 6-12 digits, the mobile field iff it is exactly 10
digits, and the email field iff it contains `"@"` and contains `"."`
anywhere (the dot need not lie in the domain); the spec's six concrete
examples all behave as stated. -/
theorem C4_field_validation :
    (∀ s : String, stripStr s = s →
      (idFieldAccepted s = true ↔
        (isDigits s = true ∧ 6 ≤ s.length ∧ s.length ≤ 12))) ∧
    (∀ s : String, stripStr s = s →
      (celFieldAccepted s = true ↔ (isDigits s = true ∧ s.length = 10))) ∧
    (∀ s : String, stripStr s = s →
      (emailFieldAccepted s = true ↔
        (strContains s "@" = true ∧ strContains s "." = true))) ∧
    (idFieldAccepted "12345" = false ∧ idFieldAccepted "123456" = true ∧
      celFieldAccepted "3001234567" = true ∧
      celFieldAccepted "123456789" = false ∧
      emailFieldAccepted "a@b.com" = true ∧
      emailFieldAccepted "a-b.com" = false) := by
  refine ⟨?_, ?_, ?_, ?_⟩
  · intro s hs
    unfold idFieldAccepted validate_client_data
    simp only [hs]
    split_ifs with h
    · simp only [Option.isNone_some, Bool.false_eq_true, false_iff]
      intro ⟨h1, h2, h3⟩
      simp only [h1, Bool.not_true, Bool.false_or, Bool.or_eq_true,
        decide_eq_true_eq] at h
      omega
    · simp only [Option.isNone_none, true_iff]
      simp only [Bool.or_eq_true, Bool.not_eq_true', decide_eq_true_eq,
        not_or] at h
      obtain ⟨⟨h1, h2⟩, h3⟩ := h
      refine ⟨by simpa using h1, by omega, by omega⟩
  · intro s hs
    unfold celFieldAccepted validate_client_data
    simp only [hs]
    split_ifs with h
    · simp only [Option.isNone_some, Bool.false_eq_true, false_iff]
      intro ⟨h1, h2⟩
      simp only [h1, Bool.not_true, Bool.false_or, Bool.or_eq_true,
        decide_eq_true_eq] at h
      omega
    · simp only [Option.isNone_none, true_iff]
      simp only [Bool.or_eq_true, Bool.not_eq_true', decide_eq_true_eq,
        not_or] at h
      obtain ⟨h1, h2⟩ := h
      exact ⟨by simpa using h1, by omega⟩
  · intro s hs
    unfold emailFieldAccepted validate_client_data
    simp only [hs]
    split_ifs with h
    · simp only [Option.isNone_some, Bool.false_eq_true, false_iff]
      intro ⟨h1, h2⟩
      simp [h1, h2] at h
    · simp only [Option.isNone_none, true_iff]
      simp only [Bool.or_eq_true, Bool.not_eq_true'] at h
      push_neg at h
      exact ⟨by simpa using h.1, by simpa using h.2⟩
  · refine ⟨by decide, by decide, by decide, by decide, by decide, by decide⟩

/-- C4 witness: the amended characterisations applied at the concrete
values `"123456"`, `"3001234567"` and `"a@b.com"`. -/
theorem C4_field_validation_witness :
    (isDigits "123456" = true ∧ 6 ≤ ("123456" : String).length ∧
        ("123456" : String).length ≤ 12) ∧
      (isDigits "3001234567" = true ∧ ("3001234567" : String).length = 10) ∧
      (strContains "a@b.com" "@" = true ∧ strContains "a@b.com" "." = true) :=
  ⟨(C4_field_validation.1 "123456" (by decide)).mp (by decide),
    (C4_field_validation.2.1 "3001234567" (by decide)).mp (by decide),
    (C4_field_validation.2.2.1 "a@b.com" (by decide)).mp (by decide)⟩

/-- C10: in the regex fallback of `_parse_client_data`, the mobile field
can only be a 10-digit run starting with `'3'`, the identification field
only a 6-11 digit run not starting with `'3'`, and the two fields can
never come from the same digit string. -/
theorem C10_fallback_extraction_shape :
    (∀ input p, fallbackCelular input = some p →
      isDigits p = true ∧ p.length = 10 ∧ startsWith3 p = true) ∧
    (∀ input c, fallbackCedula input = some c →
      isDigits c = true ∧ 6 ≤ c.length ∧ c.length ≤ 11 ∧
        startsWith3 c = false) ∧
    (∀ input p c, fallbackCelular input = some p →
      fallbackCedula input = some c → p ≠ c) := by
  have hcel : ∀ input p, fallbackCelular input = some p →
      isDigits p = true ∧ p.length = 10 ∧ startsWith3 p = true := by
    intro input p h
    have := List.find?_some h
    simp only [Bool.and_eq_true, decide_eq_true_eq] at this
    exact ⟨this.1.1, this.1.2, this.2⟩
  have hced : ∀ input c, fallbackCedula input = some c →
      isDigits c = true ∧ 6 ≤ c.length ∧ c.length ≤ 11 ∧
        startsWith3 c = false := by
    intro input c h
    have hpred := List.find?_some h
    have hmem := List.mem_of_find?_eq_some h
    simp only [fallbackCedulaCandidates, List.mem_filter, Bool.and_eq_true,
      decide_eq_true_eq] at hmem
    simp only [Bool.not_eq_true'] at hpred
    exact ⟨hmem.2.1.1, hmem.2.1.2, hmem.2.2, hpred⟩
  refine ⟨hcel, hced, ?_⟩
  intro input p c hp hc heq
  have h1 := (hcel input p hp).2.2
  have h2 := (hced input c hc).2.2.2
  rw [heq] at h1
  rw [h1] at h2
  simp at h2

/-- C10 witness: the shape facts applied at a concrete message carrying
both numbers. -/
theorem C10_fallback_extraction_witness :
    isDigits "3001234567" = true ∧ ("3001234567" : String).length = 10 ∧
      startsWith3 "3001234567" = true :=
  C10_fallback_extraction_shape.1 "cedula 123456 y celular 3001234567"
    "3001234567" (by decide)

/-- C9 counterexample: `"cobertura total"` is not a greeting by the
code's own `_is_basic_greeting`, yet `ConsultantAgent.process` answers it
on the conversational path without querying the retrieval backend (the
`len(input.split()) <= 2` shortcut) — refuting "for every non-greeting
consultation input the handler queries the retrieval backend". -/
theorem C9_counterexample :
    is_basic_greeting "cobertura total" = false ∧
      (consultant_process true
        { answer := "a", confidence := 90, sources := [] }
        "cobertura total").queriedRag = false := by
  exact ⟨by decide, by decide⟩

/-- C9 (amended): for a non-greeting input of more than two tokens with
the retrieval service initialised, the handler queries the backend and
branches on the returned confidence — at or above the configured
threshold (0.3) it formats the answer (sources attached only above 0.8),
below it it declines and suggests a human advisor; the intermediate
"uncertainty caveat" branch (confidence > 0.4 inside the low-confidence
handler) is unreachable because the configured threshold 0.3 lies below
the 0.4 floor. -/
theorem C9_confidence_branching (rag : RagResult) (input : String)
    (hg : is_basic_greeting input = false) (hw : 2 < wordCount input) :
    (consultant_process true rag input).queriedRag = true ∧
    (rag.confidence ≥ similarityThreshold →
      (consultant_process true rag input).kind = ConsultKind.formatted) ∧
    (rag.confidence < similarityThreshold →
      (consultant_process true rag input).kind = ConsultKind.decline) ∧
    (∀ (ragInit : Bool) (rag' : RagResult) (input' : String),
      (consultant_process ragInit rag' input').kind ≠ ConsultKind.caveat) := by
  have hshort : (is_basic_greeting input || decide (wordCount input ≤ 2)) = false := by
    simp [hg]
    omega
  have hred : consultant_process true rag input =
      (if rag.confidence ≥ similarityThreshold then
        { kind := ConsultKind.formatted, queriedRag := true,
          withSources := !rag.sources.isEmpty && decide (rag.confidence > 80) }
      else if rag.confidence > lowConfidenceFloor then
        { kind := ConsultKind.caveat, queriedRag := true }
      else { kind := ConsultKind.decline, queriedRag := true }) := by
    unfold consultant_process
    rw [hshort]
    simp
  have hdead : ∀ (ragInit : Bool) (rag' : RagResult) (input' : String),
      (consultant_process ragInit rag' input').kind ≠ ConsultKind.caveat := by
    intro ragInit rag' input'
    unfold consultant_process
    split_ifs with h1 h2 h3 h4
    · simp
    · simp
    · simp
    · exfalso
      have hlt : rag'.confidence < similarityThreshold := not_le.mp h3
      have hgt : lowConfidenceFloor < rag'.confidence := h4
      have : lowConfidenceFloor < similarityThreshold := lt_trans hgt hlt
      norm_num [lowConfidenceFloor, similarityThreshold] at this
    · simp
  refine ⟨?_, ?_, ?_, hdead⟩
  · rw [hred]
    split_ifs <;> rfl
  · intro hc
    rw [hred, if_pos hc]
  · intro hc
    rw [hred, if_neg (not_le.mpr hc)]
    rw [if_neg]
    intro hgt
    have : lowConfidenceFloor < similarityThreshold := lt_trans hgt hc
    norm_num [lowConfidenceFloor, similarityThreshold] at this

/-- C9 witness: the branching applied at a concrete seven-token
consultation question with confidence 1/2. -/
theorem C9_confidence_branching_witness :
    (consultant_process true
        { answer := "a", confidence := 50, sources := [] }
        "qué cubre exactamente el plan global en carretera").kind =
      ConsultKind.formatted :=
  (C9_confidence_branching
      { answer := "a", confidence := 50, sources := [] }
      "qué cubre exactamente el plan global en carretera"
      (by decide) (by decide)).2.1 (by decide)

/-- C1 counterexample: with a handler pair that always sets `transfer_to`
to each other, the post-handler routing produces five consecutive
`transfer` verdicts in one turn-processing cycle — the turn has not been
force-ended after exceeding 3 hops, and the transfer path is taken for
the same handler (`quotation`) more than once — refuting the per-turn hop
counter and the single-transfer-per-handler bound. -/
theorem C1_counterexample :
    (hopTrace pingpongHandler 5 "consultant"
        { session_id := "s1" }).map Prod.snd =
      [Route.transfer "quotation", Route.transfer "consultant",
       Route.transfer "quotation", Route.transfer "consultant",
       Route.transfer "quotation"] := by
  decide

/-- C1 (amended): `_check_post_agent_routing` keeps no hop counter; its
loop protection is that a consumed `transfer_to` is cleared (single-use)
and that a handler returning without escalation, `force_end` or a valid
`transfer_to` always ends the turn immediately.  Termination against a
mutually-transferring handler pair is not enforced by this routing. -/
theorem C1_post_routing_single_use (s : AgentState)
    (hN : s.needs_human_intervention = false) :
    (s.context_data.force_end = false → s.context_data.transfer_to = none →
      ((check_post_agent_routing s).1 = Route.final_response ∨
        (check_post_agent_routing s).1 = Route.end_)) ∧
    (∀ t, (check_post_agent_routing s).1 = Route.transfer t →
      ((check_post_agent_routing s).2.context_data.transfer_to = none ∧
        (t = "quotation" ∨ t = "expedition" ∨ t = "consultant"))) := by
  constructor
  · intro hF hT
    unfold check_post_agent_routing
    simp only [hN, hF, hT, Bool.false_eq_true, if_false]
    split_ifs <;> simp
  · intro t ht
    cases hF : s.context_data.force_end with
    | true =>
      unfold check_post_agent_routing at ht
      simp [hN, hF] at ht
    | false =>
      cases hT : s.context_data.transfer_to with
      | none =>
        unfold check_post_agent_routing at ht
        simp only [hN, hF, hT, Bool.false_eq_true, if_false] at ht
        split_ifs at ht
      | some u =>
        unfold check_post_agent_routing at ht ⊢
        simp only [hN, hF, hT, Bool.false_eq_true, if_false] at ht ⊢
        by_cases hv : u = "quotation" ∨ u = "expedition" ∨ u = "consultant"
        · rw [if_pos hv] at ht ⊢
          have hut : u = t := Route.transfer.inj ht
          subst hut
          exact ⟨rfl, hv⟩
        · rw [if_neg hv] at ht
          split_ifs at ht

/-- C1 witness: a state with no flags set ends the turn at once, applied
at a concrete fresh state. -/
theorem C1_post_routing_single_use_witness :
    (check_post_agent_routing { session_id := "w1" }).1 =
        Route.final_response ∨
      (check_post_agent_routing { session_id := "w1" }).1 = Route.end_ :=
  (C1_post_routing_single_use { session_id := "w1" } rfl).1 rfl rfl

/-- C2 counterexample: after an escalated turn (the state had
`needs_human_intervention = true`, the human-loop agent persisted its
escalation blob), the next turn's state is rebuilt with the flag reset to
`false`, and on the input `"hola"` the next turn's routing decision —
with the classifier returning its own error-fallback verdict — is the
consultant, not Escalation, with no human having cleared any control
mode.  This refutes "routing decisions of the next turn route to the
Escalation handler until a human explicitly clears control_mode". -/
theorem C2_counterexample :
    (let escalatedState : AgentState :=
      { session_id := "s1", needs_human_intervention := true,
        escalation_reason := "Solicitud explícita de asesor humano" }
    let db : Database :=
      { sessions := ["s1"],
        messages := [("s1", "user", "quiero hablar con un asesor")],
        agent_states := [(("s1", "human_loop"),
          { escalation_executed := some true,
            escalation_reason := some "Solicitud explícita de asesor humano" })] }
    let nextTurn :=
      { (get_or_create_state db "s1" "client" id).1 with
        last_user_input := "hola" }
    escalatedState.needs_human_intervention = true ∧
      nextTurn.needs_human_intervention = false ∧
      (determine_next_agent classifierErrorFallback db nextTurn).1 =
        "consultant") := by
  refine ⟨rfl, rfl, by decide⟩

/-- C2 (amended): while `needs_human_intervention` is `true`, every
routing decision of the same turn — the pre-handler decision and the
post-handler decision — routes to the Escalation handler; but the flag is
not carried into the next turn: `_get_or_create_state` always rebuilds
the state with the flag `false` (no persisted blob stores it and routing
never consults the session's control mode), so next-turn routing is not
forced to Escalation. -/
theorem C2_same_turn_absorbency :
    (∀ (cls : Classification) (db : Database) (s : AgentState),
      s.needs_human_intervention = true →
      (determine_next_agent cls db s).1 = "human_loop") ∧
    (∀ s : AgentState, s.needs_human_intervention = true →
      (check_post_agent_routing s).1 = Route.human_loop) ∧
    (∀ (db : Database) (sid userType : String)
      (extra : ContextData → ContextData),
      (get_or_create_state db sid userType extra).1.needs_human_intervention =
        false) := by
  refine ⟨?_, ?_, ?_⟩
  · intro cls db s h
    unfold determine_next_agent should_escalate_to_human
    simp [h]
  · intro s h
    unfold check_post_agent_routing
    simp [h]
  · intro db sid userType extra
    unfold get_or_create_state
    split_ifs <;> rfl

/-- C2 witness: the same-turn absorbency applied at a concrete escalated
state. -/
theorem C2_same_turn_absorbency_witness :
    (determine_next_agent classifierErrorFallback {}
        { session_id := "w2", needs_human_intervention := true }).1 =
        "human_loop" ∧
      (check_post_agent_routing
        { session_id := "w2", needs_human_intervention := true }).1 =
        Route.human_loop :=
  ⟨C2_same_turn_absorbency.1 classifierErrorFallback {}
      { session_id := "w2", needs_human_intervention := true } rfl,
    C2_same_turn_absorbency.2.1
      { session_id := "w2", needs_human_intervention := true } rfl⟩

/-- The state built by `_get_or_create_state` always carries the
requested session id. -/
theorem get_or_create_session_id (db : Database)
    (sid userType : String) (extra : ContextData → ContextData) :
    (get_or_create_state db sid userType extra).1.session_id = sid := by
  unfold get_or_create_state
  split_ifs <;> rfl

/-- C3 counterexample: on a fresh session with a workflow that raises,
`process_user_input` does return the `success=False` envelope, but the
persisted store is modified — the session record and the user message
written before the workflow are still there — refuting "the session's
persisted state is left unmodified (no partial write is observable)". -/
theorem C3_counterexample :
    (let result := process_user_input {}
      (fun _ => WorkflowOutcome.exc "boom") "s1" "hola" "client" id
    result.1.success = false ∧ result.2 ≠ ({} : Database) ∧
      result.2.messages = [("s1", "user", "hola")] ∧
      result.2.sessions = ["s1"]) := by
  refine ⟨rfl, by decide, rfl, rfl⟩

/-- C3 (amended): any exception escaping the workflow is caught once at
the top of `process_user_input` and becomes the generic apologetic
`success=False` envelope (content suggesting a retry or asking for a
human advisor, machine-readable error field carrying the exception
text) — the call never raises; however the session creation and the user
message appended before the workflow remain persisted. -/
theorem C3_error_envelope (db : Database)
    (wf : AgentState → WorkflowOutcome) (sid input userType : String)
    (extra : ContextData → ContextData) (m : String)
    (hwf : ∀ st, wf st = WorkflowOutcome.exc m) :
    (process_user_input db wf sid input userType extra).1 =
      { success := false, content := genericErrorContent, rtype := "error",
        session_id := sid, errorField := some m } ∧
    (process_user_input db wf sid input userType extra).2.messages =
      (get_or_create_state db sid userType extra).2.messages ++
        [(sid, "user", input)] := by
  unfold process_user_input add_user_message_to_history
  simp [hwf, Database.addMessage, get_or_create_session_id]

/-- C3 witness: the envelope applied on a concrete store and an
always-raising workflow. -/
theorem C3_error_envelope_witness :
    (process_user_input {} (fun _ => WorkflowOutcome.exc "timeout")
        "w3" "x" "client" id).1 =
      { success := false, content := genericErrorContent, rtype := "error",
        session_id := "w3", errorField := some "timeout" } :=
  (C3_error_envelope {} (fun _ => WorkflowOutcome.exc "timeout") "w3" "x"
    "client" id "timeout" (fun _ => rfl)).1

/-- With the client data, quotation and selected plan all present, one
`_execute_expedition` run calls the backend exactly once; failure keeps
the state at `processing_expedition`, escalates carrying the backend
error, and persists no policy; success persists the policy and completes
the state machine. -/
theorem execute_expedition_spec (db : Database) (s : AgentState)
    (cd : ClientData) (q : Quotation) (p : String)
    (hcd : s.context_data.client_data = some cd)
    (hq : s.context_data.current_quotation = some q)
    (hp : s.context_data.selected_plan = some p) :
    ∀ svc : ExpeditionOutcome,
      (execute_expedition db svc s).2 = 1 ∧
      (∀ e, svc = ExpeditionOutcome.failure e →
        ((execute_expedition db svc s).1.1.context_data.expedition_state =
            some "processing_expedition" ∧
          (execute_expedition db svc s).1.1.needs_human_intervention = true ∧
          (execute_expedition db svc s).1.1.escalation_reason =
            "Error en expedición: " ++ e ∧
          (execute_expedition db svc s).1.2.policies = db.policies)) ∧
      (∀ n, svc = ExpeditionOutcome.success n →
        ((execute_expedition db svc s).1.1.context_data.expedition_state =
            some "expedition_completed" ∧
          (execute_expedition db svc s).1.2.policies =
            (n, s.session_id) :: db.policies)) := by
  intro svc
  cases svc with
  | success n =>
    unfold execute_expedition
    simp only [hcd, hq, hp]
    refine ⟨by trivial, ?_, ?_⟩
    · intro e he
      cases he
    · intro n' hn
      cases hn
      exact ⟨by trivial, by trivial⟩
  | failure e =>
    unfold execute_expedition
    simp only [hcd, hq, hp]
    refine ⟨by trivial, ?_, ?_⟩
    · intro e' he
      cases he
      exact ⟨by trivial, by trivial, by trivial, by trivial⟩
    · intro n hn
      cases hn

/-- C5: the Issuance handler in `PROCESSING` calls the issuance backend
exactly once per confirmation — never more on any path; on failure the
state does not advance to `COMPLETED`, `needs_human_intervention` is set,
the escalation reason carries the backend error, and no policy is
persisted; on success the policy is persisted and the state moves to
`COMPLETED`. -/
theorem C5_issuance_backend_exactly_once :
    (∀ (db : Database) (svc : ExpeditionOutcome) (s : AgentState),
      (execute_expedition db svc s).2 ≤ 1) ∧
    (∀ (db : Database) (s : AgentState) (cd : ClientData) (q : Quotation)
      (p e : String),
      s.context_data.client_data = some cd →
      s.context_data.current_quotation = some q →
      s.context_data.selected_plan = some p →
      ((execute_expedition db (ExpeditionOutcome.failure e) s).2 = 1 ∧
        (execute_expedition db (ExpeditionOutcome.failure e)
            s).1.1.context_data.expedition_state =
          some "processing_expedition" ∧
        (execute_expedition db (ExpeditionOutcome.failure e)
            s).1.1.needs_human_intervention = true ∧
        (execute_expedition db (ExpeditionOutcome.failure e)
            s).1.1.escalation_reason = "Error en expedición: " ++ e ∧
        (execute_expedition db (ExpeditionOutcome.failure e)
            s).1.2.policies = db.policies)) ∧
    (∀ (db : Database) (s : AgentState) (cd : ClientData) (q : Quotation)
      (p n : String),
      s.context_data.client_data = some cd →
      s.context_data.current_quotation = some q →
      s.context_data.selected_plan = some p →
      ((execute_expedition db (ExpeditionOutcome.success n) s).2 = 1 ∧
        (execute_expedition db (ExpeditionOutcome.success n)
            s).1.1.context_data.expedition_state =
          some "expedition_completed" ∧
        (execute_expedition db (ExpeditionOutcome.success n)
            s).1.2.policies = (n, s.session_id) :: db.policies)) := by
  refine ⟨?_, ?_, ?_⟩
  · intro db svc s
    unfold execute_expedition
    rcases h1 : s.context_data.client_data with _ | cd
    all_goals rcases h2 : (db.getAgentState s.session_id "expedition") with _ | b
    all_goals simp only [h1, h2]
    all_goals
      first
      | omega
      | (repeat' split) <;> omega
  · intro db s cd q p e hcd hq hp
    obtain ⟨h1, h2, -⟩ := execute_expedition_spec db s cd q p hcd hq hp
      (ExpeditionOutcome.failure e)
    obtain ⟨h3, h4, h5, h6⟩ := h2 e rfl
    exact ⟨h1, h3, h4, h5, h6⟩
  · intro db s cd q p n hcd hq hp
    obtain ⟨h1, -, h2⟩ := execute_expedition_spec db s cd q p hcd hq hp
      (ExpeditionOutcome.success n)
    obtain ⟨h3, h4⟩ := h2 n rfl
    exact ⟨h1, h3, h4⟩

/-- C5 witness: the failure and success facts at a concrete confirmed
purchase. -/
theorem C5_issuance_backend_witness :
    (let s : AgentState :=
      { session_id := "s1",
        context_data :=
          { expedition_state := some "confirming_purchase",
            client_data := some { identificacion_tomador := some "123456",
                                  celular_tomador := some "3001234567",
                                  email_tomador := some "a@b.com" },
            current_quotation := some { plans := ["Plan Autos Basico"] },
            selected_plan := some "Plan Autos Basico" } }
    (execute_expedition {} (ExpeditionOutcome.failure "Error HTTP 500") s).2 = 1 ∧
      (execute_expedition {} (ExpeditionOutcome.failure "Error HTTP 500")
          s).1.1.needs_human_intervention = true ∧
      (execute_expedition {} (ExpeditionOutcome.success "P-001")
          s).1.2.policies = [("P-001", "s1")]) := by
  refine ⟨?_, ?_, ?_⟩
  · exact (C5_issuance_backend_exactly_once.2.1 {} _ _ _ _ "Error HTTP 500"
      rfl rfl rfl).1
  · exact (C5_issuance_backend_exactly_once.2.1 {} _ _ _ _ "Error HTTP 500"
      rfl rfl rfl).2.2.1
  · exact (C5_issuance_backend_exactly_once.2.2 {} _ _ _ _ "P-001"
      rfl rfl rfl).2.2

/-- C6: in `NEEDS_QUOTATION`, once `transfer_attempts` has reached 3 the
handler escalates with the quotation-unrecoverable reason (the code's
Spanish wording) and requests no further transfer; below the cap, with no
quotation in context or storage, it hands off to the quotation agent once
more and increments the counter — so the Issuance↔Quotation cycle makes
at most 3 hand-off attempts, as the concrete four-round run shows. -/
theorem C6_quotation_recovery_cap :
    (∀ (db : Database) (s : AgentState),
      3 ≤ s.context_data.transfer_attempts →
      ((process_needs_quotation db s).1.needs_human_intervention = true ∧
        (process_needs_quotation db s).1.escalation_reason =
          quotationUnrecoverableReason ∧
        (process_needs_quotation db s).1.context_data.transfer_to =
          s.context_data.transfer_to)) ∧
    (∀ (db : Database) (s : AgentState),
      s.context_data.transfer_attempts < 3 →
      s.context_data.current_quotation = none →
      db.latestQuotation s.session_id = none →
      ((process_needs_quotation db s).1.context_data.transfer_to =
          some "quotation" ∧
        (process_needs_quotation db s).1.context_data.transfer_attempts =
          s.context_data.transfer_attempts + 1 ∧
        (process_needs_quotation db s).1.needs_human_intervention =
          s.needs_human_intervention)) ∧
    (let s0 : AgentState :=
      { session_id := "s1",
        context_data := { expedition_state := some "needs_quotation" } }
    let step : AgentState → AgentState := fun s =>
      let s1 := (process_needs_quotation {} s).1
      { s1 with context_data := { s1.context_data with transfer_to := none } }
    ((process_needs_quotation {} s0).1.context_data.transfer_to =
        some "quotation") ∧
      ((process_needs_quotation {} (step s0)).1.context_data.transfer_to =
        some "quotation") ∧
      ((process_needs_quotation {} (step (step s0))).1.context_data.transfer_to =
        some "quotation") ∧
      ((process_needs_quotation {}
          (step (step (step s0)))).1.needs_human_intervention = true ∧
        (process_needs_quotation {}
          (step (step (step s0)))).1.escalation_reason =
          quotationUnrecoverableReason ∧
        (process_needs_quotation {}
          (step (step (step s0)))).1.context_data.transfer_to = none)) := by
  refine ⟨?_, ?_, ?_⟩
  · intro db s h
    unfold process_needs_quotation
    rw [if_pos h]
    exact ⟨rfl, rfl, rfl⟩
  · intro db s h hq hdb
    unfold process_needs_quotation
    rw [if_neg (by omega)]
    rw [hq]
    simp only [Option.isSome_none, Bool.false_eq_true, if_false]
    cases hr : s.context_data.expedition_ready with
    | false => exact ⟨rfl, rfl, rfl⟩
    | true =>
      rw [hdb]
      exact ⟨rfl, rfl, rfl⟩
  · refine ⟨by decide, by decide, by decide, by decide, by decide, by decide⟩

/-- C6 witness: the cap applied at a concrete state with three exhausted
attempts, and the hand-off applied at a fresh one. -/
theorem C6_quotation_recovery_cap_witness :
    ((process_needs_quotation {}
        { session_id := "s1",
          context_data := { expedition_state := some "needs_quotation",
                            transfer_attempts := 3 } }).1.needs_human_intervention =
      true) ∧
    ((process_needs_quotation {}
        { session_id := "s1",
          context_data := { expedition_state := some "needs_quotation" } }).1.context_data.transfer_to =
      some "quotation") :=
  ⟨(C6_quotation_recovery_cap.1 {}
      { session_id := "s1",
        context_data := { expedition_state := some "needs_quotation",
                          transfer_attempts := 3 } } (by decide)).1,
    (C6_quotation_recovery_cap.2.1 {}
      { session_id := "s1",
        context_data := { expedition_state := some "needs_quotation" } }
      (by decide) rfl rfl).1⟩

/-- C7: in `CONFIRMING_PURCHASE` — with the purchase data in place — an
affirmative answer executes the expedition (the state advances to
`processing_expedition`, completing on backend success), a negative
answer moves the state exactly to `requesting_client_data` (never to
`needs_quotation`) without touching the backend, and an ambiguous answer
re-prompts leaving the whole `context_data` unchanged. -/
theorem C7_confirmation_transitions :
    (∀ (db : Database) (svc : ExpeditionOutcome) (s : AgentState)
      (cd : ClientData) (q : Quotation) (p : String),
      isAffirmativeConfirmation s.last_user_input = true →
      s.context_data.client_data = some cd →
      s.context_data.current_quotation = some q →
      s.context_data.selected_plan = some p →
      ((process_purchase_confirmation db svc s).2 = 1 ∧
        ((process_purchase_confirmation db svc
              s).1.1.context_data.expedition_state =
            some "processing_expedition" ∨
          (process_purchase_confirmation db svc
              s).1.1.context_data.expedition_state =
            some "expedition_completed"))) ∧
    (∀ (db : Database) (svc : ExpeditionOutcome) (s : AgentState),
      isAffirmativeConfirmation s.last_user_input = false →
      isNegativeConfirmation s.last_user_input = true →
      ((process_purchase_confirmation db svc
            s).1.1.context_data.expedition_state =
          some "requesting_client_data" ∧
        (process_purchase_confirmation db svc s).2 = 0)) ∧
    (∀ (db : Database) (svc : ExpeditionOutcome) (s : AgentState),
      isAffirmativeConfirmation s.last_user_input = false →
      isNegativeConfirmation s.last_user_input = false →
      ((process_purchase_confirmation db svc s).1.1.context_data =
          s.context_data ∧
        (process_purchase_confirmation db svc s).2 = 0)) := by
  refine ⟨?_, ?_, ?_⟩
  · intro db svc s cd q p ha hcd hq hp
    unfold process_purchase_confirmation
    rw [if_pos ha]
    obtain ⟨h1, h2, h3⟩ := execute_expedition_spec db s cd q p hcd hq hp svc
    refine ⟨h1, ?_⟩
    cases svc with
    | success n => exact Or.inr ((h3 n rfl).1)
    | failure e => exact Or.inl ((h2 e rfl).1)
  · intro db svc s ha hn
    unfold process_purchase_confirmation
    rw [if_neg (by simp [ha]), if_pos hn]
    exact ⟨rfl, rfl⟩
  · intro db svc s ha hn
    unfold process_purchase_confirmation
    rw [if_neg (by simp [ha]), if_neg (by simp [hn])]
    exact ⟨rfl, rfl⟩

/-- C7 witness: the three transition facts at concrete answers `"sí,
confirmo"`, `"no, quiero hacer cambios"` and `"mmm tal vez"`. -/
theorem C7_confirmation_transitions_witness :
    (let base : AgentState :=
      { session_id := "s1",
        context_data :=
          { expedition_state := some "confirming_purchase",
            client_data := some { identificacion_tomador := some "123456",
                                  celular_tomador := some "3001234567",
                                  email_tomador := some "a@b.com" },
            current_quotation := some { plans := ["Plan Autos Basico"] },
            selected_plan := some "Plan Autos Basico" } }
    ((process_purchase_confirmation {} (ExpeditionOutcome.success "P-001")
        { base with last_user_input := "sí, confirmo" }).2 = 1) ∧
      ((process_purchase_confirmation {} (ExpeditionOutcome.success "P-001")
          { base with
            last_user_input := "no, quiero hacer cambios" }).1.1.context_data.expedition_state =
        some "requesting_client_data") ∧
      ((process_purchase_confirmation {} (ExpeditionOutcome.success "P-001")
          { base with last_user_input := "mmm tal vez" }).1.1.context_data =
        ({ base with last_user_input := "mmm tal vez" } : AgentState).context_data)) := by
  refine ⟨?_, ?_, ?_⟩
  · exact (C7_confirmation_transitions.1 {} (ExpeditionOutcome.success "P-001")
      _ _ _ _ (by decide) rfl rfl rfl).1
  · exact (C7_confirmation_transitions.2.1 {}
      (ExpeditionOutcome.success "P-001") _ (by decide) (by decide)).1
  · exact (C7_confirmation_transitions.2.2 {}
      (ExpeditionOutcome.success "P-001") _ (by decide) (by decide)).1

/-- A dictionary update never erases a present key. -/
theorem mergeKey_isSome {α : Type} (a b : Option α) (h : b.isSome = true) :
    (mergeKey a b).isSome = true := by
  cases a <;> simp [mergeKey, h]

/-- The accumulation tail always stores exactly the merged partial
data. -/
theorem partialData_after_merge (db : Database)
    (parsed : ClientData) (s : AgentState) :
    (process_client_data_merge db parsed
        s).1.context_data.partial_client_data =
      mergeClientData s.context_data.partial_client_data parsed := by
  unfold process_client_data_merge
  dsimp only
  (repeat' split) <;> rfl

/-- Every branch of `_process_client_data` leaves
`partial_client_data` either untouched (the plan-selection early return)
or equal to the stored partial data updated by the freshly parsed
fields. -/
theorem partialData_after_process (db : Database) (parsed : ClientData)
    (s : AgentState) :
    (process_client_data db parsed s).1.context_data.partial_client_data =
        s.context_data.partial_client_data ∨
      (process_client_data db parsed s).1.context_data.partial_client_data =
        mergeClientData s.context_data.partial_client_data parsed := by
  unfold process_client_data
  cases hsel : s.context_data.selected_plan with
  | some p =>
    simp only [hsel]
    exact Or.inr (partialData_after_merge db parsed s)
  | none =>
    simp only [hsel]
    (repeat' split) <;>
      first
      | exact Or.inl rfl
      | exact Or.inr (partialData_after_merge db parsed _)

/-- Within one `_process_client_data` call, the set of known partial
fields only grows — each newly parsed field is merged into the stored
partial data and a field present in the live context is never erased,
whatever branch the call takes.  (This is only the within-call half of
the accumulation story: `partial_client_data` lives solely in the live
`context_data`, see the cross-turn theorem below.) -/
theorem single_call_client_data_monotone (db : Database) (parsed : ClientData)
    (s : AgentState) :
    (s.context_data.partial_client_data.nombre_tomador.isSome = true →
      (process_client_data db parsed
        s).1.context_data.partial_client_data.nombre_tomador.isSome = true) ∧
    (s.context_data.partial_client_data.identificacion_tomador.isSome = true →
      (process_client_data db parsed
        s).1.context_data.partial_client_data.identificacion_tomador.isSome =
        true) ∧
    (s.context_data.partial_client_data.celular_tomador.isSome = true →
      (process_client_data db parsed
        s).1.context_data.partial_client_data.celular_tomador.isSome = true) ∧
    (s.context_data.partial_client_data.email_tomador.isSome = true →
      (process_client_data db parsed
        s).1.context_data.partial_client_data.email_tomador.isSome = true) := by
  rcases partialData_after_process db parsed s with h | h <;>
    rw [h] <;>
    refine ⟨?_, ?_, ?_, ?_⟩ <;>
    intro hf <;>
    first
    | exact hf
    | exact mergeKey_isSome _ _ hf

/-- Within-call monotonicity at a concrete input: a stored
identification survives a call that only adds the mobile number. -/
theorem single_call_client_data_monotone_witness :
    (process_client_data {} { celular_tomador := some "3001234567" }
        { session_id := "s1",
          context_data :=
            { expedition_state := some "requesting_client_data",
              selected_plan := some "Plan Autos Basico",
              partial_client_data :=
                { identificacion_tomador := some "123456" } },
          last_user_input :=
            "3001234567" }).1.context_data.partial_client_data.identificacion_tomador.isSome =
      true :=
  (single_call_client_data_monotone {} { celular_tomador := some "3001234567" }
      { session_id := "s1",
        context_data :=
          { expedition_state := some "requesting_client_data",
            selected_plan := some "Plan Autos Basico",
            partial_client_data :=
              { identificacion_tomador := some "123456" } },
        last_user_input := "3001234567" }).2.1 (by decide)

/-- C8: the claimed cross-turn accumulation fails on the code.  In turn
N (expedition already in `requesting_client_data` with a selected plan,
as persisted by `_start_expedition_process`) the user sends `"123456"`
and the extracted cédula is stored in `partial_client_data`; but no
`save_agent_state` call ever persists `partial_client_data`, and
`_get_or_create_state` rebuilds `context_data` from the persisted blobs
at the start of the next turn, so the rebuilt turn-N+1 state has lost
the field.  After turn N+1 (user sends `"3001234567"`) the known field
set is `{celular}`, not a superset of turn N's `{identificacion}` —
previously collected fields are lost, contradicting the claim and the
code's own accumulation comments. -/
theorem C8_cross_turn_field_loss :
    (let db0 : Database :=
      { sessions := ["s8"],
        agent_states := [(("s8", "expedition"),
          { expedition_state := some "requesting_client_data",
            selected_plan := some "Plan Autos Basico",
            quotation_available := some true })] }
    let parsedN : ClientData :=
      { identificacion_tomador := fallbackCedula "123456",
        celular_tomador := fallbackCelular "123456" }
    let turnN := process_client_data db0 parsedN
      { (get_or_create_state db0 "s8" "client" id).1 with
        last_user_input := "123456" }
    let rebuilt :=
      { (get_or_create_state turnN.2 "s8" "client" id).1 with
        last_user_input := "3001234567" }
    let parsedN1 : ClientData :=
      { identificacion_tomador := fallbackCedula "3001234567",
        celular_tomador := fallbackCelular "3001234567" }
    let turnN1 := process_client_data turnN.2 parsedN1 rebuilt
    turnN.1.context_data.partial_client_data.identificacion_tomador =
        some "123456" ∧
      rebuilt.context_data.partial_client_data.identificacion_tomador =
        none ∧
      turnN1.1.context_data.partial_client_data.identificacion_tomador =
        none ∧
      turnN1.1.context_data.partial_client_data.celular_tomador =
        some "3001234567") := by
  decide

end SegurosSura
